import Mathlib

/-!
Verification of the secret-lifecycle orchestration engine of the
rundeck-automation repository.  The Python sources are shallowly embedded
as pure Lean functions: HTTP interactions are represented by their
observable outcomes (a status code, or an `Except` value standing for a
normal return versus a raised exception), and dictionaries are association
lists with Python dict-merge semantics.
-/

/-- A secret bundle: a Python dict from key to value, embedded as an
association list (keys unique in real dicts; lookups take the first hit). -/
abbrev Bundle := List (String × String)

/-- The key set of a bundle, in insertion order (Python `dict.keys()`). -/
def keysOf (b : Bundle) : List String := b.map Prod.fst

/-- Python dict lookup `b[k]` / `b.get(k)`. -/
def dictLookup (b : Bundle) (k : String) : Option String :=
  match b with
  | [] => none
  | (k', v) :: t => if k' = k then some v else dictLookup t k

/-- Python `{**dest, **source}`: destination keys first (values replaced by
the source value when the source also has the key), then the source
entries whose keys are new. -/
def dictMerge (dest source : Bundle) : Bundle :=
  dest.map (fun kv => (kv.1, (dictLookup source kv.1).getD kv.2))
    ++ source.filter (fun kv => (dictLookup dest kv.1).isNone)

/-- Python `str.lower()` (ASCII-faithful), character by character. -/
def lowerStr (s : String) : String := ⟨s.data.map Char.toLower⟩

/-- Python `needle == hay[:len(needle)]` on character lists. -/
def strStartsWith : List Char → List Char → Bool
  | [], _ => true
  | _ :: _, [] => false
  | a :: as, b :: bs => a == b && strStartsWith as bs

/-- Python `needle in hay` (substring containment) on character lists. -/
def strContainsSub (needle : List Char) : List Char → Bool
  | [] => strStartsWith needle []
  | b :: bs => strStartsWith needle (b :: bs) || strContainsSub needle bs

/-- The not-found discrimination used by the workflows
(clone-vault.py line 147, delete-vault.py line 131):
`"404" in str(e).lower() or "not found" in str(e).lower()`. -/
def is_not_found_msg (msg : String) : Bool :=
  strContainsSub "404".data (lowerStr msg).data
    || strContainsSub "not found".data (lowerStr msg).data

/-- Error message built by `VaultClient.read_secret` (vault_client.py
lines 136-141) for a failed HTTP read: the 404 case replaces the generic
status-code message with a path-only text. -/
def read_error_msg (path : String) (status : Nat) : String :=
  if status = 404 then "Secret not found at path: " ++ path
  else "Vault API error: " ++ toString status

/-- `VaultClient.read_secret` (vault_client.py lines 86-146) observed at
one HTTP response: `requests.raise_for_status` raises exactly for
400 ≤ status < 600, which `read_secret` converts to a `VaultAPIError`
carrying only `read_error_msg`; otherwise the decoded data is returned. -/
def read_secret_model (path : String) (status : Nat) (data : Bundle) :
    Except String Bundle :=
  if 400 ≤ status ∧ status < 600 then .error (read_error_msg path status)
  else .ok data

/-- `VaultClient.delete_secret` (vault_client.py lines 148-204) observed at
one HTTP response: 200/204 → `True`; 404 → `False` (already absent);
`raise_for_status` raises for 400 ≤ status < 600, converted to a
`VaultAPIError`; any remaining status falls through to `return False`. -/
def delete_secret_status (status : Nat) : Except String Bool :=
  if status = 200 ∨ status = 204 then .ok true
  else if status = 404 then .ok false
  else if 400 ≤ status ∧ status < 600 then
    .error ("Failed to delete secret: " ++ toString status)
  else .ok false

/-- True exactly when the client call raised a `VaultAPIError`. -/
def isStoreError : Except String Bool → Bool
  | .error _ => true
  | .ok _ => false

/-- Everything `copy_vault_secret` (clone-vault.py lines 113-192) computes
before returning `(source_data, action)`: the data written to the
destination, the action string, the logged mode, and the logged
new/updated key sets of the merge branch. -/
structure CopyOutcome where
  final : Bundle
  action : String
  mode : String
  newKeys : List String
  updatedKeys : List String
  returnedData : Bundle
deriving DecidableEq

/-- `copy_vault_secret` (clone-vault.py lines 113-192).  The three vault
calls are represented by their outcomes: `sourceRes`/`destRes` are the
results of `read_secret` on the source/destination path (`.error` stands
for a raised `VaultAPIError` carrying the message), `writeRes` the result
of `write_secret`.  A raised error that is not the destination-read
not-found case is caught by the outer handler and yields `none`. -/
def copy_vault_secret (sourceRes destRes : Except String Bundle)
    (writeRes : Except String Unit) (overwrite : Bool) : Option CopyOutcome :=
  match sourceRes with
  | .error _ => none
  | .ok source =>
    if source.isEmpty then none
    else
      match destRes with
      | .ok dest =>
        if overwrite then
          match writeRes with
          | .error _ => none
          | .ok _ => some ⟨source, "create", "OVERWRITE", [], [], source⟩
        else
          match writeRes with
          | .error _ => none
          | .ok _ =>
            some ⟨dictMerge dest source, "add", "MERGE",
              (keysOf source).filter (fun k => decide (k ∉ keysOf dest)),
              (keysOf source).filter (fun k => decide (k ∈ keysOf dest)),
              source⟩
      | .error msg =>
        if is_not_found_msg msg then
          match writeRes with
          | .error _ => none
          | .ok _ => some ⟨source, "create", "CREATE NEW", [], [], source⟩
        else none

/-- `delete_vault_secret` (delete-vault.py lines 114-165).  `readRes` is
the outcome of the initial `read_secret`, `deleteRes` the outcome of
`delete_secret` (the default non-permanent branch).  A not-found read
returns the empty key list; any other raised error reaches the outer
handler and yields `none`; a `False` from `delete_secret` is reported as
failure. -/
def delete_vault_secret (readRes : Except String Bundle)
    (deleteRes : Except String Bool) : Option (List String) :=
  match readRes with
  | .error msg => if is_not_found_msg msg then some [] else none
  | .ok data =>
    let deleted_keys := if data.isEmpty then [] else keysOf data
    match deleteRes with
    | .error _ => none
    | .ok true => some deleted_keys
    | .ok false => none

/-- Exit code of delete-vault.py `main` (lines 206-237) as a function of
the `delete_vault_secret` result: `None` → 2, any key list → 0 (the
downstream YAML step never changes the exit code). -/
def delete_main_exit (res : Option (List String)) : Int :=
  match res with
  | none => 2
  | some _ => 0

/-- `get_git_branch_from_env` (clone-vault.py lines 36-39 and
delete-vault.py lines 37-40): `branch_mapping.get(env.lower(), "ct-dev")`
over the three-entry mapping. -/
def get_git_branch_from_env (env : String) : String :=
  if lowerStr env = "dev" then "ct-dev"
  else if lowerStr env = "uat" then "ct-uat"
  else if lowerStr env = "prod" then "ct-prod"
  else "ct-dev"

/-- The part of a git working tree that `GitClient.commit` inspects
(git_client.py line 130): `repo.is_dirty()` and `repo.untracked_files`. -/
structure RepoState where
  is_dirty : Bool
  untracked_files : List String
deriving DecidableEq

/-- `GitClient.commit` (git_client.py lines 112-157): with nothing to
commit it returns `True` without committing; otherwise the commit either
succeeds (`True`) or raises, which the handler converts to a
`GitOperationError`.  `commitRaises` represents whether
`repo.index.commit` would raise. -/
def GitClient.commit (repo : RepoState) (commitRaises : Bool) :
    Except String Bool :=
  if repo.is_dirty = false ∧ repo.untracked_files = [] then .ok true
  else if commitRaises then .error "Git commit failed"
  else .ok true

/-- `GitClient.commit_and_push` (git_client.py lines 237-270): add the
file, commit, push; the first raised `GitOperationError` propagates,
otherwise the workflow returns `True`. -/
def GitClient.commit_and_push (repo : RepoState)
    (addRes : Except String Unit) (commitRaises : Bool)
    (pushRes : Except String Unit) : Except String Bool :=
  match addRes with
  | .error e => .error e
  | .ok _ =>
    match GitClient.commit repo commitRaises with
    | .error e => .error e
    | .ok _ =>
      match pushRes with
      | .error e => .error e
      | .ok _ => .ok true

/-- Observable outcome of one `chat_postMessage` attempt inside
`SlackNotifier.send` (notification.py lines 74-117). -/
inductive AttemptResult where
  | okTrue (ts channel : String)
  | okFalse
  | apiError (errCode : String)
  | otherError
deriving DecidableEq

/-- What `SlackNotifier.send` produces for its caller. -/
inductive SendResult where
  | noChannel
  | delivered (ts channel : String)
  | notificationError
deriving DecidableEq

/-- Default `max_retries` of `SlackNotifier.__init__` (notification.py
line 53). -/
def slack_default_max_retries : Nat := 3

/-- The fixed inter-attempt delay of `SlackNotifier.send`
(notification.py line 117): `time.sleep(2)`. -/
def slack_retry_delay_seconds : Nat := 2

/-- The retry loop of `SlackNotifier.send` (notification.py lines
74-121), as a function of the per-attempt outcomes `att` (1-indexed);
`i` is the current attempt number and the second argument the number of
attempts still allowed.  Returns the result together with the number of
attempts actually made.  A `SlackApiError` whose error code is
`channel_not_found` or `not_in_channel` breaks out of the loop; every
exit from the loop without a successful post raises `NotificationError`. -/
def sendGo (att : Nat → AttemptResult) : Nat → Nat → SendResult × Nat
  | i, 0 => (.notificationError, i - 1)
  | i, r + 1 =>
    match att i with
    | .okTrue ts channel => (.delivered ts channel, i)
    | .okFalse => sendGo att (i + 1) r
    | .apiError e =>
      if e = "channel_not_found" ∨ e = "not_in_channel" then
        (.notificationError, i)
      else sendGo att (i + 1) r
    | .otherError => sendGo att (i + 1) r

/-- `SlackNotifier.send` (notification.py lines 65-121): with no
configured channel it returns `None` immediately (zero attempts);
otherwise it runs the retry loop. -/
def SlackNotifier.send (channel : Option String) (maxRetries : Nat)
    (att : Nat → AttemptResult) : SendResult × Nat :=
  match channel with
  | none => (.noChannel, 0)
  | some _ => sendGo att 1 maxRetries

/-- `isSuccess a` iff attempt outcome `a` is a delivered post. -/
def isSuccess : AttemptResult → Bool
  | .okTrue _ _ => true
  | _ => false

/-- `isPermError a` iff attempt outcome `a` is one of the two Slack
permission errors that `SlackNotifier.send` refuses to retry. -/
def isPermError : AttemptResult → Bool
  | .apiError e => decide (e = "channel_not_found" ∨ e = "not_in_channel")
  | _ => false

/-- The exception classes distinguished by the handlers of
input-vault-key.py `main` (lines 193-203). -/
inductive MainException where
  | templateRender
  | rundeckAPI
  | configuration
  | notification
  | vaultAPI
  | other
deriving DecidableEq

/-- Exit code chosen by the exception handlers of input-vault-key.py
`main` (lines 193-203): only `NotificationError` is downgraded to exit
code 0; `VaultAPIError` has no dedicated handler and falls into the
generic `except Exception` branch. -/
def input_main_exception_exit : MainException → Int
  | .templateRender => 1
  | .rundeckAPI => 1
  | .configuration => 1
  | .notification => 0
  | .vaultAPI => 1
  | .other => 1

/-- Outcome of the `action == "create"` branch of input-vault-key.py
`main` (lines 124-135). -/
inductive CreateOutcome where
  | failFastExists
  | errorExit
  | proceeds
deriving DecidableEq

/-- The `action == "create"` branch of input-vault-key.py `main` (lines
124-135) as a function of the `read_secret` outcome on the target path: a
successful read reaches the unconditional validation-failure return
(exit 1); a raised `VaultAPIError` — in particular the not-found error
for an absent path — is not handled in the branch and propagates to the
generic `except Exception` handler (exit 1).  No outcome of the read lets
execution continue to the artifact-generation steps. -/
def input_main_create (readRes : Except String Bundle) : CreateOutcome :=
  match readRes with
  | .ok _ => .failFastExists
  | .error _ => .errorExit

/-- Exit code associated with each `CreateOutcome` by input-vault-key.py:
both failure paths return 1; only continuing to the artifact steps could
end with 0. -/
def createOutcomeExit : CreateOutcome → Int
  | .failFastExists => 1
  | .errorExit => 1
  | .proceeds => 0

-- ### Basic lemmas about the embedded dictionary operations

theorem strStartsWith_append (n A B : List Char)
    (h : strStartsWith n A = true) : strStartsWith n (A ++ B) = true := by
  induction n generalizing A with
  | nil => rfl
  | cons a as ih =>
    cases A with
    | nil => simp [strStartsWith] at h
    | cons b bs =>
      simp only [strStartsWith, Bool.and_eq_true] at h
      simp only [List.cons_append, strStartsWith, Bool.and_eq_true]
      exact ⟨h.1, ih bs h.2⟩

theorem strContainsSub_nil (B : List Char) : strContainsSub [] B = true := by
  induction B with
  | nil => rfl
  | cons b bs ih => simp [strContainsSub, strStartsWith, ih]

theorem strContainsSub_append (n A B : List Char)
    (h : strContainsSub n A = true) : strContainsSub n (A ++ B) = true := by
  induction A with
  | nil =>
    cases n with
    | nil => exact strContainsSub_nil B
    | cons a as => simp [strContainsSub, strStartsWith] at h
  | cons b bs ih =>
    simp only [strContainsSub, Bool.or_eq_true] at h
    simp only [List.cons_append, strContainsSub, Bool.or_eq_true]
    cases h with
    | inl h => exact Or.inl (strStartsWith_append _ _ _ h)
    | inr h => exact Or.inr (ih h)

theorem dictLookup_append_some (a b : Bundle) (k : String) (v : String)
    (h : dictLookup a k = some v) : dictLookup (a ++ b) k = some v := by
  induction a with
  | nil => simp [dictLookup] at h
  | cons hd tl ih =>
    obtain ⟨k0, v0⟩ := hd
    by_cases hk : k0 = k
    · subst hk
      simp [dictLookup] at h
      simp [dictLookup, h]
    · simp only [dictLookup, hk, if_neg hk] at h
      simp [dictLookup, hk, ih h]

theorem dictLookup_append_none (a b : Bundle) (k : String)
    (h : dictLookup a k = none) : dictLookup (a ++ b) k = dictLookup b k := by
  induction a with
  | nil => rfl
  | cons hd tl ih =>
    obtain ⟨k0, v0⟩ := hd
    by_cases hk : k0 = k
    · simp [dictLookup, hk] at h
    · simp only [dictLookup, hk, if_neg hk] at h
      simp [dictLookup, hk, ih h]

theorem dictLookup_mergeMap (d s : Bundle) (k : String) :
    dictLookup (d.map (fun kv => (kv.1, (dictLookup s kv.1).getD kv.2))) k
      = (dictLookup d k).map (fun v => (dictLookup s k).getD v) := by
  induction d with
  | nil => rfl
  | cons hd tl ih =>
    obtain ⟨k0, v0⟩ := hd
    by_cases hk : k0 = k
    · subst hk
      simp [dictLookup]
    · simp [dictLookup, hk, ih]

theorem dictLookup_filterPart (d s : Bundle) (k : String)
    (h : dictLookup d k = none) :
    dictLookup (s.filter (fun kv => (dictLookup d kv.1).isNone)) k
      = dictLookup s k := by
  induction s with
  | nil => rfl
  | cons hd tl ih =>
    obtain ⟨k0, v0⟩ := hd
    by_cases hk : k0 = k
    · subst hk
      have hkeep : (dictLookup d k0).isNone = true := by simp [h]
      simp [List.filter, hkeep, dictLookup]
    · cases hp : (dictLookup d k0).isNone with
      | false => simp [List.filter, hp, dictLookup, hk, ih]
      | true => simp [List.filter, hp, dictLookup, hk, ih]

theorem mem_keys_iff_exists (b : Bundle) (k : String) :
    k ∈ keysOf b ↔ ∃ v, (k, v) ∈ b := by
  simp only [keysOf, List.mem_map]
  constructor
  · rintro ⟨⟨k0, v0⟩, hmem, rfl⟩
    exact ⟨v0, hmem⟩
  · rintro ⟨v, hv⟩
    exact ⟨(k, v), hv, rfl⟩

theorem dictLookup_some_of_mem_keys (b : Bundle) (k : String)
    (h : k ∈ keysOf b) : ∃ v, dictLookup b k = some v := by
  induction b with
  | nil => simp [keysOf] at h
  | cons hd tl ih =>
    obtain ⟨k0, v0⟩ := hd
    by_cases hk : k0 = k
    · exact ⟨v0, by simp [dictLookup, hk]⟩
    · have : k ∈ keysOf tl := by
        simp only [keysOf, List.map_cons, List.mem_cons] at h
        rcases h with h | h
        · exact absurd h.symm hk
        · exact h
      obtain ⟨v, hv⟩ := ih this
      exact ⟨v, by simp [dictLookup, hk, hv]⟩

theorem dictLookup_none_of_not_mem (b : Bundle) (k : String)
    (h : k ∉ keysOf b) : dictLookup b k = none := by
  induction b with
  | nil => rfl
  | cons hd tl ih =>
    obtain ⟨k0, v0⟩ := hd
    simp only [keysOf, List.map_cons, List.mem_cons, not_or] at h
    have hne : ¬k0 = k := fun hc => h.1 hc.symm
    simp [dictLookup, hne, ih (by simpa [keysOf] using h.2)]

theorem mem_keys_of_lookup_some (b : Bundle) (k v : String)
    (h : dictLookup b k = some v) : k ∈ keysOf b := by
  by_contra hc
  rw [dictLookup_none_of_not_mem b k hc] at h
  exact Option.noConfusion h

theorem keysOf_mergeMap (d s : Bundle) :
    keysOf (d.map (fun kv => (kv.1, (dictLookup s kv.1).getD kv.2)))
      = keysOf d := by
  simp only [keysOf, List.map_map]
  rfl

theorem mem_keys_dictMerge (d s : Bundle) (k : String) :
    k ∈ keysOf (dictMerge d s) ↔ k ∈ keysOf d ∨ k ∈ keysOf s := by
  simp only [dictMerge, keysOf, List.map_append, List.mem_append]
  rw [show (d.map (fun kv => (kv.1, (dictLookup s kv.1).getD kv.2))).map Prod.fst
      = keysOf d from keysOf_mergeMap d s]
  constructor
  · rintro (h | h)
    · exact Or.inl h
    · refine Or.inr ?_
      simp only [List.mem_map] at h
      obtain ⟨kv, hkv, rfl⟩ := h
      have := List.mem_of_mem_filter hkv
      exact (mem_keys_iff_exists s kv.1).mpr ⟨kv.2, this⟩
  · rintro (h | h)
    · exact Or.inl h
    · by_cases hd : k ∈ keysOf d
      · exact Or.inl hd
      · refine Or.inr ?_
        obtain ⟨v, hv⟩ := (mem_keys_iff_exists s k).mp h
        have hnone : dictLookup d k = none := dictLookup_none_of_not_mem d k hd
        refine List.mem_map.mpr ⟨(k, v), ?_, rfl⟩
        refine List.mem_filter.mpr ⟨hv, ?_⟩
        simp [hnone]

theorem dictMerge_lookup_source (d s : Bundle) (k : String)
    (h : k ∈ keysOf s) : dictLookup (dictMerge d s) k = dictLookup s k := by
  obtain ⟨w, hw⟩ := dictLookup_some_of_mem_keys s k h
  unfold dictMerge
  cases hd : dictLookup d k with
  | some v =>
    have hmap : dictLookup
        (d.map (fun kv => (kv.1, (dictLookup s kv.1).getD kv.2))) k
        = some ((dictLookup s k).getD v) := by
      rw [dictLookup_mergeMap, hd]; rfl
    rw [dictLookup_append_some _ _ _ _ hmap, hw]
    simp [hw]
  | none =>
    have hmap : dictLookup
        (d.map (fun kv => (kv.1, (dictLookup s kv.1).getD kv.2))) k = none := by
      rw [dictLookup_mergeMap, hd]; rfl
    rw [dictLookup_append_none _ _ _ hmap]
    exact dictLookup_filterPart d s k hd

theorem dictMerge_lookup_dest_only (d s : Bundle) (k : String)
    (hd : k ∈ keysOf d) (hs : k ∉ keysOf s) :
    dictLookup (dictMerge d s) k = dictLookup d k := by
  obtain ⟨v, hv⟩ := dictLookup_some_of_mem_keys d k hd
  have hnone : dictLookup s k = none := dictLookup_none_of_not_mem s k hs
  unfold dictMerge
  have hmap : dictLookup
      (d.map (fun kv => (kv.1, (dictLookup s kv.1).getD kv.2))) k
      = some ((dictLookup s k).getD v) := by
    rw [dictLookup_mergeMap, hv]; rfl
  rw [dictLookup_append_some _ _ _ _ hmap, hv, hnone]
  rfl

theorem notfound_msg_matches (path : String) :
    is_not_found_msg ("Secret not found at path: " ++ path) = true := by
  simp only [is_not_found_msg, Bool.or_eq_true]
  refine Or.inr ?_
  have hdata : (lowerStr ("Secret not found at path: " ++ path)).data
      = "Secret not found at path: ".data.map Char.toLower
        ++ path.data.map Char.toLower := by
    simp [lowerStr, String.data_append]
  rw [hdata]
  exact strContainsSub_append _ _ _ (by decide)

-- ### Claim theorems

theorem sendGo_step (att : Nat → AttemptResult) (i r : Nat)
    (h1 : isSuccess (att i) = false) (h2 : isPermError (att i) = false) :
    sendGo att i (r + 1) = sendGo att (i + 1) r := by
  cases hatt : att i with
  | okTrue ts channel => rw [hatt] at h1; simp [isSuccess] at h1
  | okFalse => simp [sendGo, hatt]
  | apiError e =>
    rw [hatt] at h2
    simp only [isPermError, decide_eq_false_iff_not] at h2
    simp [sendGo, hatt, h2]
  | otherError => simp [sendGo, hatt]

/-- Claim C1: for a non-empty source bundle and an existing destination
bundle, Copy with overwrite=false produces the Python-merge
`{**dest, **source}` with source winning on collisions, keys only in the
destination untouched, mode MERGE, newKeys = keys(source) − keys(dest)
and updatedKeys = keys(source) ∩ keys(dest). -/
theorem copy_merge_semantics (source dest : Bundle) (out : CopyOutcome)
    (hs : source ≠ [])
    (hout : copy_vault_secret (.ok source) (.ok dest) (.ok ()) false
      = some out) :
    out.mode = "MERGE" ∧ out.action = "add" ∧
    (∀ k, k ∈ keysOf source → dictLookup out.final k = dictLookup source k) ∧
    (∀ k, k ∈ keysOf dest → k ∉ keysOf source →
      dictLookup out.final k = dictLookup dest k) ∧
    (∀ k, k ∈ keysOf out.final ↔ k ∈ keysOf dest ∨ k ∈ keysOf source) ∧
    (∀ k, k ∈ out.newKeys ↔ k ∈ keysOf source ∧ k ∉ keysOf dest) ∧
    (∀ k, k ∈ out.updatedKeys ↔ k ∈ keysOf source ∧ k ∈ keysOf dest) := by
  have hempty : source.isEmpty = false := by
    cases source with
    | nil => exact absurd rfl hs
    | cons a t => rfl
  simp only [copy_vault_secret, hempty, Bool.false_eq_true, if_false] at hout
  injection hout with hout
  subst hout
  refine ⟨rfl, rfl, ?_, ?_, ?_, ?_, ?_⟩
  · exact fun k hk => dictMerge_lookup_source dest source k hk
  · exact fun k hkd hks => dictMerge_lookup_dest_only dest source k hkd hks
  · exact fun k => mem_keys_dictMerge dest source k
  · intro k
    simp [List.mem_filter]
  · intro k
    simp [List.mem_filter]

/-- Witness for C1: the end-to-end scenario of the spec, source
`{A:1, B:2}` and destination `{B:9, C:3}`. -/
theorem copy_merge_semantics_witness :
    ([("A", "1"), ("B", "2")] : Bundle) ≠ [] ∧
    copy_vault_secret (.ok [("A", "1"), ("B", "2")])
        (.ok [("B", "9"), ("C", "3")]) (.ok ()) false
      = some ⟨[("B", "2"), ("C", "3"), ("A", "1")], "add", "MERGE",
          ["A"], ["B"], [("A", "1"), ("B", "2")]⟩ ∧
    ((⟨[("B", "2"), ("C", "3"), ("A", "1")], "add", "MERGE",
        ["A"], ["B"], [("A", "1"), ("B", "2")]⟩ : CopyOutcome).mode = "MERGE" ∧
      (⟨[("B", "2"), ("C", "3"), ("A", "1")], "add", "MERGE",
        ["A"], ["B"], [("A", "1"), ("B", "2")]⟩ : CopyOutcome).action = "add" ∧
      (∀ k, k ∈ keysOf [("A", "1"), ("B", "2")] →
        dictLookup (⟨[("B", "2"), ("C", "3"), ("A", "1")], "add", "MERGE",
          ["A"], ["B"], [("A", "1"), ("B", "2")]⟩ : CopyOutcome).final k
          = dictLookup [("A", "1"), ("B", "2")] k) ∧
      (∀ k, k ∈ keysOf [("B", "9"), ("C", "3")] →
        k ∉ keysOf [("A", "1"), ("B", "2")] →
        dictLookup (⟨[("B", "2"), ("C", "3"), ("A", "1")], "add", "MERGE",
          ["A"], ["B"], [("A", "1"), ("B", "2")]⟩ : CopyOutcome).final k
          = dictLookup [("B", "9"), ("C", "3")] k) ∧
      (∀ k, k ∈ keysOf (⟨[("B", "2"), ("C", "3"), ("A", "1")], "add", "MERGE",
          ["A"], ["B"], [("A", "1"), ("B", "2")]⟩ : CopyOutcome).final ↔
        k ∈ keysOf [("B", "9"), ("C", "3")] ∨ k ∈ keysOf [("A", "1"), ("B", "2")]) ∧
      (∀ k, k ∈ (⟨[("B", "2"), ("C", "3"), ("A", "1")], "add", "MERGE",
          ["A"], ["B"], [("A", "1"), ("B", "2")]⟩ : CopyOutcome).newKeys ↔
        k ∈ keysOf [("A", "1"), ("B", "2")] ∧ k ∉ keysOf [("B", "9"), ("C", "3")]) ∧
      (∀ k, k ∈ (⟨[("B", "2"), ("C", "3"), ("A", "1")], "add", "MERGE",
          ["A"], ["B"], [("A", "1"), ("B", "2")]⟩ : CopyOutcome).updatedKeys ↔
        k ∈ keysOf [("A", "1"), ("B", "2")] ∧ k ∈ keysOf [("B", "9"), ("C", "3")])) :=
  ⟨by decide, by decide,
    copy_merge_semantics [("A", "1"), ("B", "2")] [("B", "9"), ("C", "3")]
      ⟨[("B", "2"), ("C", "3"), ("A", "1")], "add", "MERGE",
        ["A"], ["B"], [("A", "1"), ("B", "2")]⟩ (by decide) (by decide)⟩

/-- Claim C2 (code bug): under action `create`, when the target path is
absent (read raises the not-found `VaultAPIError`), input-vault-key.py
`main` does not proceed to the artifact-generation steps — the exception
reaches the generic handler and the program exits 1, instead of the
specified fail-fast-iff-exists behaviour. -/
theorem input_create_never_proceeds :
    input_main_create (.error (read_error_msg "gke/app" 404))
      = CreateOutcome.errorExit ∧
    createOutcomeExit (input_main_create (.error (read_error_msg "gke/app" 404)))
      = 1 ∧
    CreateOutcome.errorExit ≠ CreateOutcome.proceeds ∧
    input_main_create (.ok [("K", "v")]) = CreateOutcome.failFastExists ∧
    createOutcomeExit CreateOutcome.failFastExists = 1 :=
  ⟨rfl, rfl, by decide, rfl, rfl⟩

/-- Counterexample to claim C3: the error raised on a 404 read is the
same single `VaultAPIError` shape as for any other failing status, and
its message for path `gke/app` contains no status code at all (the
substring `404` does not occur); the only discrimination available — and
the one the in-repo callers use — is substring matching on the message. -/
theorem read_error_no_status_code :
    read_secret_model "gke/app" 404 [] = .error "Secret not found at path: gke/app" ∧
    read_secret_model "gke/app" 500 [] = .error "Vault API error: 500" ∧
    strContainsSub "404".data
      (lowerStr "Secret not found at path: gke/app").data = false ∧
    is_not_found_msg "Secret not found at path: gke/app" = true ∧
    is_not_found_msg "Vault API error: 500" = false := by
  refine ⟨?_, ?_, by decide, by decide, by decide⟩
  · simp [read_secret_model, read_error_msg]
  · rfl

/-- Claim C3 as amended: a 404 read raises a `VaultAPIError` whose message
is exactly `Secret not found at path: <path>`, any other 4xx/5xx read
raises a `VaultAPIError` with the generic status message, and the
not-found case is recognised by the callers' substring match on the
message (not by a carried status code, which the error does not have). -/
theorem read_error_distinguished_by_message (path : String) (status : Nat)
    (data : Bundle) (h4 : 400 ≤ status) (h6 : status < 600)
    (hne : status ≠ 404) :
    read_secret_model path 404 data
      = .error ("Secret not found at path: " ++ path) ∧
    read_secret_model path status data
      = .error ("Vault API error: " ++ toString status) ∧
    is_not_found_msg ("Secret not found at path: " ++ path) = true := by
  refine ⟨?_, ?_, notfound_msg_matches path⟩
  · unfold read_secret_model read_error_msg
    rw [if_pos ⟨by omega, by omega⟩, if_pos rfl]
  · unfold read_secret_model read_error_msg
    rw [if_pos ⟨h4, h6⟩, if_neg hne]

/-- Witness for the amended C3, at path `gke/app` and status 500. -/
theorem read_error_distinguished_by_message_witness :
    400 ≤ 500 ∧ 500 < 600 ∧ (500 : Nat) ≠ 404 ∧
    (read_secret_model "gke/app" 404 []
        = .error ("Secret not found at path: " ++ "gke/app") ∧
      read_secret_model "gke/app" 500 []
        = .error ("Vault API error: " ++ toString 500) ∧
      is_not_found_msg ("Secret not found at path: " ++ "gke/app") = true) :=
  ⟨by omega, by omega, by omega,
    read_error_distinguished_by_message "gke/app" 500 []
      (by omega) (by omega) (by omega)⟩

/-- Counterexample to claim C4: HTTP 304 is a non-2xx status other than
404, yet the soft-delete returns `False` without raising any store error
(`requests.raise_for_status` only raises for statuses in [400, 600)). -/
theorem delete_secret_304_no_error :
    delete_secret_status 304 = Except.ok false ∧
    ¬(200 ≤ 304 ∧ 304 < 300) ∧
    (304 : Nat) ≠ 404 ∧
    isStoreError (delete_secret_status 304) = false := by
  refine ⟨?_, by omega, by omega, ?_⟩
  · simp [delete_secret_status]
  · simp [delete_secret_status, isStoreError]

/-- Claim C4 as amended: the soft-delete returns `true` on 200/204,
`false` (without error) on 404, raises a store error exactly for the
statuses in [400, 600) other than 404, and returns `false` without error
for every remaining status (1xx, 3xx and 2xx other than 200/204). -/
theorem delete_secret_status_behavior (s t : Nat)
    (hs1 : 400 ≤ s) (hs2 : s < 600) (hs3 : s ≠ 404)
    (ht : t < 400 ∨ 600 ≤ t) (ht200 : t ≠ 200) (ht204 : t ≠ 204) :
    delete_secret_status 200 = .ok true ∧
    delete_secret_status 204 = .ok true ∧
    delete_secret_status 404 = .ok false ∧
    isStoreError (delete_secret_status s) = true ∧
    delete_secret_status t = .ok false := by
  refine ⟨by simp [delete_secret_status], by simp [delete_secret_status],
    by simp [delete_secret_status], ?_, ?_⟩
  · unfold delete_secret_status
    rw [if_neg (by omega), if_neg hs3, if_pos ⟨hs1, hs2⟩]
    rfl
  · unfold delete_secret_status
    rw [if_neg (by omega), if_neg (by omega), if_neg (by omega)]

/-- Witness for the amended C4, at statuses 500 (raises) and 304 (silent
`false`). -/
theorem delete_secret_status_behavior_witness :
    400 ≤ 500 ∧ 500 < 600 ∧ (500 : Nat) ≠ 404 ∧
    ((304 : Nat) < 400 ∨ 600 ≤ 304) ∧ (304 : Nat) ≠ 200 ∧ (304 : Nat) ≠ 204 ∧
    (delete_secret_status 200 = .ok true ∧
      delete_secret_status 204 = .ok true ∧
      delete_secret_status 404 = .ok false ∧
      isStoreError (delete_secret_status 500) = true ∧
      delete_secret_status 304 = .ok false) :=
  ⟨by omega, by omega, by omega, by omega, by omega, by omega,
    delete_secret_status_behavior 500 304 (by omega) (by omega) (by omega)
      (by omega) (by omega) (by omega)⟩

/-- Claim C5: the Delete workflow is idempotent — a not-found initial
read yields the empty key list and exit code 0 (so the second of two
consecutive deletions succeeds), and an existing secret yields the
pre-deletion key list with exit code 0. -/
theorem delete_idempotent (path : String) (deleteRes : Except String Bool)
    (data : Bundle) (hdata : data ≠ []) :
    delete_vault_secret (.error (read_error_msg path 404)) deleteRes = some [] ∧
    delete_main_exit
      (delete_vault_secret (.error (read_error_msg path 404)) deleteRes) = 0 ∧
    delete_vault_secret (.ok data) (.ok true) = some (keysOf data) ∧
    delete_main_exit (delete_vault_secret (.ok data) (.ok true)) = 0 := by
  have hmsg : is_not_found_msg (read_error_msg path 404) = true := by
    unfold read_error_msg
    rw [if_pos rfl]
    exact notfound_msg_matches path
  have h1 : delete_vault_secret (.error (read_error_msg path 404)) deleteRes
      = some [] := by
    simp [delete_vault_secret, hmsg]
  have hempty : data.isEmpty = false := by
    cases data with
    | nil => exact absurd rfl hdata
    | cons a t => rfl
  have h2 : delete_vault_secret (.ok data) (.ok true) = some (keysOf data) := by
    simp [delete_vault_secret, hempty]
  exact ⟨h1, by rw [h1]; rfl, h2, by rw [h2]; rfl⟩

/-- Witness for C5, at path `gke/app` with a one-key secret. -/
theorem delete_idempotent_witness :
    ([("A", "1")] : Bundle) ≠ [] ∧
    (delete_vault_secret (.error (read_error_msg "gke/app" 404)) (.ok true)
        = some [] ∧
      delete_main_exit
        (delete_vault_secret (.error (read_error_msg "gke/app" 404)) (.ok true))
        = 0 ∧
      delete_vault_secret (.ok [("A", "1")]) (.ok true)
        = some (keysOf [("A", "1")]) ∧
      delete_main_exit (delete_vault_secret (.ok [("A", "1")]) (.ok true)) = 0) :=
  ⟨by decide, delete_idempotent "gke/app" (.ok true) [("A", "1")] (by decide)⟩

/-- Claim C6: the branch-selection function maps dev/uat/prod (case
insensitively, e.g. `PROD`) to their fixed branches and every
unrecognized environment to `ct-dev`. -/
theorem get_git_branch_cases (env : String)
    (h1 : lowerStr env ≠ "dev") (h2 : lowerStr env ≠ "uat")
    (h3 : lowerStr env ≠ "prod") :
    get_git_branch_from_env "dev" = "ct-dev" ∧
    get_git_branch_from_env "uat" = "ct-uat" ∧
    get_git_branch_from_env "prod" = "ct-prod" ∧
    get_git_branch_from_env "PROD" = "ct-prod" ∧
    get_git_branch_from_env "DEV" = "ct-dev" ∧
    get_git_branch_from_env "UAT" = "ct-uat" ∧
    get_git_branch_from_env "staging" = "ct-dev" ∧
    get_git_branch_from_env env = "ct-dev" := by
  refine ⟨by decide, by decide, by decide, by decide, by decide, by decide,
    by decide, ?_⟩
  unfold get_git_branch_from_env
  rw [if_neg h1, if_neg h2, if_neg h3]

/-- Witness for C6, at the unrecognized environment `staging`. -/
theorem get_git_branch_cases_witness :
    lowerStr "staging" ≠ "dev" ∧ lowerStr "staging" ≠ "uat" ∧
    lowerStr "staging" ≠ "prod" ∧
    (get_git_branch_from_env "dev" = "ct-dev" ∧
      get_git_branch_from_env "uat" = "ct-uat" ∧
      get_git_branch_from_env "prod" = "ct-prod" ∧
      get_git_branch_from_env "PROD" = "ct-prod" ∧
      get_git_branch_from_env "DEV" = "ct-dev" ∧
      get_git_branch_from_env "UAT" = "ct-uat" ∧
      get_git_branch_from_env "staging" = "ct-dev" ∧
      get_git_branch_from_env "staging" = "ct-dev") :=
  ⟨by decide, by decide, by decide,
    get_git_branch_cases "staging" (by decide) (by decide) (by decide)⟩

/-- Claim C7: with nothing to commit (clean tree, no untracked files),
`GitClient.commit` is a no-op reported as success, and
`GitClient.commit_and_push` completes successfully — even when an actual
commit attempt would have raised. -/
theorem commit_noop_success (repo : RepoState) (commitRaises : Bool)
    (h1 : repo.is_dirty = false) (h2 : repo.untracked_files = []) :
    GitClient.commit repo commitRaises = .ok true ∧
    GitClient.commit_and_push repo (.ok ()) commitRaises (.ok ()) = .ok true := by
  have hc : GitClient.commit repo commitRaises = .ok true := by
    unfold GitClient.commit
    rw [if_pos ⟨h1, h2⟩]
  refine ⟨hc, ?_⟩
  unfold GitClient.commit_and_push
  rw [hc]

/-- Witness for C7, at a clean repository whose commit call would raise. -/
theorem commit_noop_success_witness :
    (RepoState.mk false []).is_dirty = false ∧
    (RepoState.mk false []).untracked_files = [] ∧
    (GitClient.commit (RepoState.mk false []) true = .ok true ∧
      GitClient.commit_and_push (RepoState.mk false []) (.ok ()) true (.ok ())
        = .ok true) :=
  ⟨rfl, rfl, commit_noop_success (RepoState.mk false []) true rfl rfl⟩

/-- Counterexample to claim C8: a first attempt failing with the Slack
permission error `channel_not_found` is not retried — the loop breaks and
`NotificationError` is raised after a single attempt, not after the 3
default attempts; so not every failed attempt is retryable. -/
theorem notifier_permission_error_aborts :
    SlackNotifier.send (some "C123") slack_default_max_retries
      (fun _ => .apiError "channel_not_found") = (.notificationError, 1) ∧
    (1 : Nat) ≠ slack_default_max_retries := by
  refine ⟨?_, by decide⟩
  rfl

/-- Claim C8 as amended: the Notifier attempts delivery up to 3 times
(the default) with a fixed 2-second delay, retrying every failure except
the Slack permission errors `channel_not_found`/`not_in_channel`, which
abort the loop and raise `NotificationError` immediately; after the
attempts are exhausted it raises `NotificationError`; the enclosing
workflow maps `NotificationError` to exit code 0 (non-fatal). -/
theorem notifier_retries_then_raises (ch : String)
    (att : Nat → AttemptResult)
    (hfail : ∀ i, isSuccess (att i) = false)
    (hperm : ∀ i, isPermError (att i) = false) :
    SlackNotifier.send (some ch) slack_default_max_retries att
      = (.notificationError, slack_default_max_retries) ∧
    slack_retry_delay_seconds = 2 ∧
    input_main_exception_exit .notification = 0 ∧
    SlackNotifier.send (some ch) slack_default_max_retries
      (fun _ => .apiError "channel_not_found") = (.notificationError, 1) := by
  refine ⟨?_, rfl, rfl, rfl⟩
  show sendGo att 1 slack_default_max_retries
    = (.notificationError, slack_default_max_retries)
  unfold slack_default_max_retries
  rw [show (3 : Nat) = 2 + 1 from rfl, sendGo_step att 1 2 (hfail 1) (hperm 1)]
  rw [show (2 : Nat) = 1 + 1 from rfl, sendGo_step att 2 1 (hfail 2) (hperm 2)]
  rw [show (1 : Nat) = 0 + 1 from rfl, sendGo_step att 3 0 (hfail 3) (hperm 3)]
  rfl

/-- Witness for the amended C8: every attempt returns an `ok=False`
response, so all three attempts are made before the error. -/
theorem notifier_retries_then_raises_witness :
    (∀ i, isSuccess ((fun _ : Nat => AttemptResult.okFalse) i) = false) ∧
    (∀ i, isPermError ((fun _ : Nat => AttemptResult.okFalse) i) = false) ∧
    (SlackNotifier.send (some "C123") slack_default_max_retries
        (fun _ : Nat => AttemptResult.okFalse)
        = (.notificationError, slack_default_max_retries) ∧
      slack_retry_delay_seconds = 2 ∧
      input_main_exception_exit .notification = 0 ∧
      SlackNotifier.send (some "C123") slack_default_max_retries
        (fun _ => .apiError "channel_not_found") = (.notificationError, 1)) :=
  ⟨fun _ => rfl, fun _ => rfl,
    notifier_retries_then_raises "C123" (fun _ : Nat => AttemptResult.okFalse)
      (fun _ => rfl) (fun _ => rfl)⟩

/-- Claim C9: with no configured channel, `SlackNotifier.send` returns
`None` immediately — zero delivery attempts, and no `NotificationError`. -/
theorem notifier_send_no_channel (maxRetries : Nat)
    (att : Nat → AttemptResult) :
    SlackNotifier.send none maxRetries att = (.noChannel, 0) ∧
    (SlackNotifier.send none maxRetries att).1 ≠ SendResult.notificationError ∧
    (SlackNotifier.send none maxRetries att).2 = 0 := by
  refine ⟨rfl, ?_, rfl⟩
  intro h
  exact SendResult.noConfusion h

/-- Claim C10: when the initial read finds keys but the delete call
itself observes a 404 (returns `False`), the Delete workflow reports
failure (`None`, exit code 2), not success. -/
theorem delete_race_reports_failure (data : Bundle) (hdata : data ≠ []) :
    delete_vault_secret (.ok data) (.ok false) = none ∧
    delete_main_exit (delete_vault_secret (.ok data) (.ok false)) = 2 := by
  have h : delete_vault_secret (.ok data) (.ok false) = none := rfl
  exact ⟨h, by rw [h]; rfl⟩

/-- Witness for C10, at a one-key secret. -/
theorem delete_race_reports_failure_witness :
    ([("A", "1")] : Bundle) ≠ [] ∧
    (delete_vault_secret (.ok [("A", "1")]) (.ok false) = none ∧
      delete_main_exit (delete_vault_secret (.ok [("A", "1")]) (.ok false)) = 2) :=
  ⟨by decide, delete_race_reports_failure [("A", "1")] (by decide)⟩
